import Mathlib

/-!
Verification of the Financial-Dashboard frontend against its specification.

The TypeScript source is shallowly embedded: JS strings are Lean `String`
(lists of characters, `toUpperCase` modelled by `Char.toUpper`, the
basic-latin mapping, which agrees with JS on the ASCII tickers the app
handles), JS numbers are exact rationals `ℚ` (the concrete values settled
here are exact in binary floating point as well), fallible fetches are
oracles returning `Option`/`Except`, and React hook/component state is
explicit state passing.
-/

/-- The character class `['"]` of the regex in `cleanTicker`
(`src/Frontend/src/api/index.ts:28`): code points 39 (single quote) and
34 (double quote). -/
def isQuoteChar (c : Char) : Bool :=
  decide (c.toNat = 39 ∨ c.toNat = 34)

/-- Effect of the `^['"]+` alternative of the regex: remove the maximal
leading run of quote characters. -/
def dropLeadingQuotes (l : List Char) : List Char := l.dropWhile isQuoteChar

/-- Effect of the `['"]+$` alternative of the regex: remove the maximal
trailing run of quote characters. -/
def dropTrailingQuotes (l : List Char) : List Char :=
  (l.reverse.dropWhile isQuoteChar).reverse

/-- Character-list body of `cleanTicker`: strip the quote runs matched by
`replace(/^['"]+|['"]+$/g, '')`, then `toUpperCase()`. -/
def cleanTickerChars (l : List Char) : List Char :=
  (dropTrailingQuotes (dropLeadingQuotes l)).map Char.toUpper

/-- `cleanTicker` from `src/Frontend/src/api/index.ts:28` (same definition
in `src/unnamed/part_009:11` and `src/unnamed/part_007:18`):
`ticker.replace(/^['"]+|['"]+$/g, '').toUpperCase()`. Note the code
strips only quote characters; it contains no `trim()`. -/
def cleanTicker (s : String) : String := String.mk (cleanTickerChars s.data)

/-- JS `String.prototype.toUpperCase()` on the basic-latin range:
`Char.toUpper` mapped over the characters. -/
def jsToUpperCase (s : String) : String := String.mk (s.data.map Char.toUpper)

/-- Two-digit zero padding of the fractional part produced by `toFixed`. -/
def jsToFixedPad (d : Nat) (r : Nat) : String :=
  let raw := toString r
  String.mk (List.replicate (d - raw.length) (Char.ofNat 48)) ++ raw

/-- `Number.prototype.toFixed(d)` on a nonnegative rational: the integer
`m` with `m / 10^d` closest to the value, ties to the larger `m`
(ECMA-262), rendered with `d` fractional digits. -/
def jsToFixedNonneg (d : Nat) (q : ℚ) : String :=
  let m : Nat := (Int.floor (q * (10 : ℚ) ^ d + 1 / 2)).toNat
  if d = 0 then toString m
  else toString (m / 10 ^ d) ++ "." ++ jsToFixedPad d (m % 10 ^ d)

/-- `Number.prototype.toFixed(d)`: negative values are rendered as a minus
sign and the rendering of the magnitude (ECMA-262 step order). -/
def jsToFixed (d : Nat) (q : ℚ) : String :=
  if q < 0 then "-" ++ jsToFixedNonneg d (-q) else jsToFixedNonneg d q

/-- JS `Number.prototype.toString()` as the model needs it: integers print
without a fractional part; a non-integer rational is printed as
numerator/denominator (the app only reaches this branch with integers). -/
def jsNumToString (q : ℚ) : String :=
  if q.den = 1 then toString q.num
  else toString q.num ++ "/" ++ toString q.den

namespace FastInfoCard

/-- The defined-value arm of `formatNumber` from `src/unnamed/part_003:35`:
the `$`-prefixed suffix ladder with `toFixed(2)`. -/
def formatNumberVal (v : ℚ) : String :=
  if v ≥ 1000000000000 then "$" ++ jsToFixed 2 (v / 1000000000000) ++ "T"
  else if v ≥ 1000000000 then "$" ++ jsToFixed 2 (v / 1000000000) ++ "B"
  else if v ≥ 1000000 then "$" ++ jsToFixed 2 (v / 1000000) ++ "M"
  else if v ≥ 1000 then "$" ++ jsToFixed 2 (v / 1000) ++ "K"
  else "$" ++ jsToFixed 2 v

/-- `formatNumber` from `src/unnamed/part_003:33`: `undefined`/`null`
gives "N/A", otherwise the ladder above. -/
def formatNumber (value : Option ℚ) : String :=
  match value with
  | none => "N/A"
  | some v => formatNumberVal v

end FastInfoCard

namespace Fmt

/-- `formatNumber` from `src/unnamed/part_007:94`: only the M and K rungs,
with `toFixed(1)`, and `num.toString()` below 1000. -/
def formatNumber (num : ℚ) : String :=
  if num ≥ 1000000 then jsToFixed 1 (num / 1000000) ++ "M"
  else if num ≥ 1000 then jsToFixed 1 (num / 1000) ++ "K"
  else jsNumToString num

end Fmt

/-- The suffix ladder exactly as the specification words it (section 4.4
and section 8): thresholds 1e12/1e9/1e6/1e3 with suffixes T/B/M/K, two
decimal places, the literal value below 1e3, and no currency prefix. -/
def formatNumberSpecLadder (v : ℚ) : String :=
  if v ≥ 1000000000000 then jsToFixed 2 (v / 1000000000000) ++ "T"
  else if v ≥ 1000000000 then jsToFixed 2 (v / 1000000000) ++ "B"
  else if v ≥ 1000000 then jsToFixed 2 (v / 1000000) ++ "M"
  else if v ≥ 1000 then jsToFixed 2 (v / 1000) ++ "K"
  else jsToFixed 2 v

/-- A stock quote. The repository's `Frontend/src/types.ts` is not under
`src/`; the field list is taken from the object `getStockData` constructs
in `src/unnamed/part_007:38` (and matches the spec's StockQuote row). -/
structure StockData where
  ticker : String
  price : ℚ
  price_change_1d : ℚ
  price_change_5d : ℚ
  rsi : ℚ
  rsi_status : String
  macd : ℚ
  macd_signal : ℚ
  ema20 : ℚ
  bollinger_high : ℚ
  bollinger_low : ℚ
  atr : ℚ
  trend : String
  volume : ℚ
  last_updated : String
deriving DecidableEq

/-- A news item, fields as consumed by `NewsCard.tsx` (the `types.ts`
module itself is not under `src/`). -/
structure NewsItem where
  title : String
  url : String
  source : String
  published_at : String
  content : String
  sentiment : String
  confidence : ℚ
deriving DecidableEq

/-- A trading signal, fields as consumed by `SignalsPanel.tsx`. -/
structure Signal where
  ticker : String
  signal : String
  signals : List String
  reasoning : List String
  generated_at : String
deriving DecidableEq

/-- The aggregate bundle the `/dashboard` endpoint returns, fields as
constructed in `src/unnamed/part_007:72` and consumed by `Dashboard`. -/
structure DashboardData where
  stocks : List StockData
  news : List NewsItem
  signals : List Signal
  timestamp : String
deriving DecidableEq

namespace Hooks

/-- The `{data, loading, error}` triple held by `useDashboardData`
(`src/Frontend/src/hooks/useDashboardData.ts:8`). -/
structure HookState where
  data : Option DashboardData
  loading : Bool
  error : Option String
deriving DecidableEq

/-- The `useState` initial values of `useDashboardData`: `null`, `true`,
`null`. -/
def initialHookState : HookState :=
  { data := none, loading := true, error := none }

/-- The branch on `tickers.length > 0` in the `useEffect` body of
`useDashboardData` (`useDashboardData.ts:35`). Result: the state after
the synchronous part of the effect ran, paired with whether a network
fetch was started (the `setInterval` refresh timer is also created only
in the `true` branch, so `false` means no fetch is ever issued). -/
def dashboardEffect (tickers : List String) (s : HookState) : HookState × Bool :=
  if tickers.length > 0 then ({ s with loading := true }, true)
  else ({ data := none, loading := false, error := none }, false)

/-- The `useEffect` body of the `useDashboardData` variant in
`src/unnamed/part_008:10-29` (the plausible `hooks/useApi` module the
Dashboard component of `src/unnamed/part_004` imports): it calls
`fetchData()` unconditionally and starts the 60-second interval, with no
guard on the ticker list. The synchronous part of `fetchData` sets
`loading` to `true`; the second component is the ticker list of the
`GET /dashboard` request that is issued (`some` always — a request goes
out for every input, the empty list included). -/
def dashboardEffectUnguarded (tickers : List String) (s : HookState) :
    HookState × Option (List String) :=
  ({ s with loading := true }, some tickers)

/-- How a settled fetch updates the hook state (`useDashboardData.ts:15`):
on success `setData`/`setError(null)`, on failure `setError(msg)` with
`data` untouched, and `setLoading(false)` in `finally`; every update is
guarded by `isMounted`. The failure message is
`err instanceof Error ? err.message : 'Failed to fetch data'`,
modelled as the `String` carried by `Except.error`. -/
def fetchSettle (isMounted : Bool) (s : HookState)
    (outcome : Except String DashboardData) : HookState :=
  match outcome with
  | Except.ok d =>
    if isMounted then { data := some d, error := none, loading := false } else s
  | Except.error msg =>
    if isMounted then { data := s.data, error := some msg, loading := false } else s

end Hooks

namespace NewsCard

/-- The style record returned by `getSentimentColor`
(`src/Frontend/src/components/NewsCard.tsx:9`). -/
structure SentimentStyle where
  bg : String
  text : String
  border : String
  icon : String
deriving DecidableEq

/-- The `default` arm of the `switch` in `getSentimentColor`. -/
def defaultSentimentStyle : SentimentStyle :=
  { bg := "bg-gray-50", text := "text-gray-700", border := "border-gray-200"
    icon := "📰" }

/-- `getSentimentColor` from `NewsCard.tsx:9`: a `switch` on
`sentiment.toUpperCase()` with three recognized arms and a default
(the icon strings are the emoji the source stores). -/
def getSentimentColor (sentiment : String) : SentimentStyle :=
  if jsToUpperCase sentiment = "POSITIVE" then
    { bg := "bg-green-50", text := "text-green-700"
      border := "border-green-200", icon := "📈" }
  else if jsToUpperCase sentiment = "NEGATIVE" then
    { bg := "bg-red-50", text := "text-red-700"
      border := "border-red-200", icon := "📉" }
  else if jsToUpperCase sentiment = "NEUTRAL" then
    { bg := "bg-gray-50", text := "text-gray-700"
      border := "border-gray-200", icon := "📊" }
  else defaultSentimentStyle

end NewsCard

namespace SignalsPanel

/-- `getSignalColor` from
`src/Frontend/src/components/SignalsPanel.tsx:9`: a `switch` on the raw
signal type with a gray default arm. -/
def getSignalColor (type_ : String) : String :=
  if type_ = "buy" then "text-green-600 bg-green-50"
  else if type_ = "sell" then "text-red-600 bg-red-50"
  else if type_ = "hold" then "text-yellow-600 bg-yellow-50"
  else "text-gray-600 bg-gray-50"

/-- One rendered signal entry of `SignalsPanel` (ticker span, upper-cased
signal badge with its color class, joined reasoning and tags). -/
structure RenderedSignalEntry where
  ticker : String
  badge : String
  badgeColor : String
  reasoning : String
  tags : String
deriving DecidableEq

/-- The list rendered by `SignalsPanel.tsx:20`: the empty list yields the
"No signals available" paragraph (no entries), otherwise one entry per
signal via `signals.map`. -/
def render (signals : List Signal) : List RenderedSignalEntry :=
  if signals.length = 0 then []
  else signals.map (fun s =>
    { ticker := s.ticker, badge := jsToUpperCase s.signal
      badgeColor := getSignalColor s.signal
      reasoning := String.intercalate ", " s.reasoning
      tags := String.intercalate ", " s.signals })

end SignalsPanel

namespace StockGrid

/-- One rendered `StockCard` of the grid: `key={stock.ticker}` plus the
stock passed down (`src/Frontend/src/components/StockGrid.tsx:13`). -/
structure RenderedStockCard where
  key : String
  stock : StockData
deriving DecidableEq

/-- `StockGrid` renders `stocks.map(...)`: one card per stock,
unconditionally. -/
def render (stocks : List StockData) : List RenderedStockCard :=
  stocks.map (fun s => { key := s.ticker, stock := s })

end StockGrid

namespace NewsPanel

/-- The list of news cards rendered by `NewsPanel.tsx:12`: the empty list
yields the "No news available" paragraph (no cards), otherwise
`news.slice(0, 5).map(...)` — one `NewsCard` per item of the first five. -/
def render (news : List NewsItem) : List NewsItem :=
  if news.length = 0 then [] else news.take 5

end NewsPanel

namespace QueryBuilder

/-- A JSON value as the query builder stores it in condition operands
(`src/unnamed/part_004`): the seeded operands are a field name string and
a number, and the BTWN editor turns the value slot into an array. -/
inductive JVal where
  | str : String → JVal
  | num : ℚ → JVal
  | arr : List JVal → JVal

/-- One screener condition: `{operator, operands}`
(`src/unnamed/part_004:169`). -/
structure Condition where
  operator : String
  operands : List JVal

/-- The top-level query state: `{operator: 'AND', operands: []}` with one
`Condition` per operand (`src/unnamed/part_004:133`). -/
structure Query where
  operator : String
  operands : List Condition

/-- The condition `addCondition` seeds: `{operator: 'GT',
operands: ['marketCap', 0]}` (`src/unnamed/part_004:169`). -/
def newCondition : Condition :=
  { operator := "GT", operands := [JVal.str "marketCap", JVal.num 0] }

/-- `addCondition` (`src/unnamed/part_004:168`): spread the previous
operands and append the seeded condition at the end. -/
def addCondition (q : Query) : Query :=
  { q with operands := q.operands ++ [newCondition] }

/-- The body of `removeCondition`'s
`prev.operands.filter((_, i) => i !== index)`: keep each element whose
position differs from `index`, counting positions from `start`. -/
def filterOutIndex (start index : Nat) : List Condition → List Condition
  | [] => []
  | c :: cs =>
    if start = index then filterOutIndex (start + 1) index cs
    else c :: filterOutIndex (start + 1) index cs

/-- `removeCondition` (`src/unnamed/part_004:189`): filter the operand at
the given index out of the condition list. -/
def removeCondition (q : Query) (index : Nat) : Query :=
  { q with operands := filterOutIndex 0 index q.operands }

end QueryBuilder

namespace AIChat

/-- One chat message (`src/Frontend/src/components/AIChat.tsx:3`). The
`id` and `timestamp` fields come from the wall clock (`Date.now()`,
`toLocaleTimeString`), which the model leaves out; sender and content
determine everything the claims speak about. -/
structure ChatMsg where
  sender : String
  content : String
deriving DecidableEq

/-- The single greeting the message list is initialised with
(`AIChat.tsx:20`). -/
def initialMessages : List ChatMsg :=
  [{ sender := "ai"
     content := "Hi! I'm your AI stock assistant. Ask me about any stock analysis, buy/sell decisions, or market insights. Select a stock above and ask away!" }]

/-- `addMessage` (`AIChat.tsx:57`): `setMessages(prev => [...prev, new])`,
an append at the end. -/
def addMessage (msgs : List ChatMsg) (sender content : String) : List ChatMsg :=
  msgs ++ [{ sender := sender, content := content }]

/-- JS `String.prototype.replace` with a string pattern: replace the first
occurrence only. -/
def replaceFirstAux (pat rep : List Char) : List Char → List Char
  | [] => if pat.isEmpty then rep else []
  | a :: as =>
    if pat.isPrefixOf (a :: as) then rep ++ (a :: as).drop pat.length
    else a :: replaceFirstAux pat rep as

/-- JS `s.replace(pat, rep)` for a plain string pattern (no `$`
substitution patterns occur in the app's replacement strings). -/
def replaceFirst (s pat rep : String) : String :=
  String.mk (replaceFirstAux pat.data rep.data s.data)

/-- JS `String.prototype.trim()`: remove leading and trailing
whitespace. -/
def jsTrim (s : String) : String :=
  String.mk (((s.data.dropWhile Char.isWhitespace).reverse.dropWhile
    Char.isWhitespace).reverse)

/-- The four canned quick questions (`AIChat.tsx:42`), placeholder
included. -/
def quickQuestions : List String :=
  ["Should I buy {ticker} right now?",
   "What are the risks of {ticker}?",
   "Price target for {ticker}?",
   "Volume analysis for {ticker}?"]

/-- `sendMessage` (`AIChat.tsx:97`): trim the input; bail out on an empty
message or while loading; otherwise append the user message and then call
`askQuestion` with it. Result: the new message list, paired with the
question handed to `askQuestion` (`none` when no request is made). -/
def sendMessage (msgs : List ChatMsg) (inputMessage : String)
    (isLoading : Bool) : List ChatMsg × Option String :=
  let message := jsTrim inputMessage
  if message.isEmpty || isLoading then (msgs, none)
  else (addMessage msgs "user" message, some message)

/-- `handleQuickQuestion` (`AIChat.tsx:132`): substitute the current
ticker for the `{ticker}` placeholder and call `askQuestion` directly —
no `addMessage` happens on this path. Result shaped as in
`sendMessage`. -/
def handleQuickQuestion (msgs : List ChatMsg) (currentTicker question : String) :
    List ChatMsg × Option String :=
  (msgs, some (replaceFirst question "{ticker}" currentTicker))

end AIChat

namespace YahooApi

/-- `NIFTY_50_TICKERS` from `src/unnamed/part_007:6`, in source order. -/
def NIFTY_50_TICKERS : List String :=
  ["RELIANCE", "TCS", "HDFCBANK", "INFY", "ICICIBANK", "KOTAKBANK", "LT",
   "AXISBANK", "SBIN", "HDFC", "ITC", "BAJFINANCE", "BHARTIARTL", "HCLTECH",
   "ASIANPAINT", "MARUTI", "WIPRO", "ULTRACEMCO", "TITAN", "SUNPHARMA",
   "POWERGRID", "JSWSTEEL", "ONGC", "DIVISLAB", "NESTLEIND", "TECHM", "GRASIM",
   "DRREDDY", "HEROMOTOCO", "HINDUNILVR", "ADANIGREEN", "BAJAJ-AUTO", "IOC",
   "COALINDIA", "ADANIPORTS", "EICHERMOT", "SBILIFE", "CIPLA", "BRITANNIA",
   "TATASTEEL", "TATAMOTORS", "SHREECEM", "INDUSINDBK", "TATACONSUM", "HINDALCO",
   "DLF", "UPL", "BPCL", "M&M", "ICICIPRULI"]

/-- `mapTickerToYahooSymbol` (`src/unnamed/part_007:22`): sanitize, then
append `.NS` for NIFTY-50 members. -/
def mapTickerToYahooSymbol (ticker : String) : String :=
  let symbol := cleanTicker ticker
  if NIFTY_50_TICKERS.contains symbol then symbol ++ ".NS" else symbol

/-- The fields of a Yahoo quote `getStockData` reads
(`src/unnamed/part_007:40`); each is optional (`?? 0` defaults). -/
structure YahooQuote where
  regularMarketPrice : Option ℚ
  regularMarketChangePercent : Option ℚ
  regularMarketVolume : Option ℚ
  regularMarketTime : Option ℚ
deriving DecidableEq

/-- The environment a run of the client sees: `quote symbol` is the first
`quoteResponse.result` entry of the GET for that symbol (`none` covers
both a transport failure and an absent quote — both throw in the
source), `isoOfTime t` is `new Date(t * 1000).toISOString()`, and
`nowIso` is `new Date().toISOString()`. -/
structure FetchEnv where
  quote : String → Option YahooQuote
  isoOfTime : ℚ → String
  nowIso : String

/-- `getStockData` (`src/unnamed/part_007:30`): fetch the mapped symbol's
quote and build a `StockData` with `?? 0` defaults, the fixed indicator
placeholders, and the sign-of-change trend; a failed fetch rethrows
(`none`). -/
def getStockData (env : FetchEnv) (ticker : String) : Option StockData :=
  (env.quote (mapTickerToYahooSymbol ticker)).map (fun q =>
    { ticker := cleanTicker ticker
      price := q.regularMarketPrice.getD 0
      price_change_1d := q.regularMarketChangePercent.getD 0
      price_change_5d := 0
      rsi := 0
      rsi_status := "NEUTRAL"
      macd := 0
      macd_signal := 0
      ema20 := 0
      bollinger_high := 0
      bollinger_low := 0
      atr := 0
      trend := if (0 : ℚ) < q.regularMarketChangePercent.getD 0 then "BULLISH" else "BEARISH"
      volume := q.regularMarketVolume.getD 0
      last_updated := env.isoOfTime (q.regularMarketTime.getD 0) })

/-- The ticker list `getDashboardData` actually iterates:
`tickers.length ? tickers : NIFTY_50_TICKERS` (an empty array is falsy). -/
def effectiveTickers (tickers : List String) : List String :=
  if tickers.length ≠ 0 then tickers else NIFTY_50_TICKERS

/-- The quote requests one call of `getDashboardData` issues: one GET per
iterated ticker, for its mapped symbol. -/
def dashboardRequests (tickers : List String) : List String :=
  (effectiveTickers tickers).map mapTickerToYahooSymbol

/-- `getDashboardData` (`src/unnamed/part_007:61`): loop over the
effective tickers, push each successful `getStockData` result and swallow
failures (`try`/`catch` with only a `console.error`), and return the
bundle with literal empty `news` and `signals`. -/
def getDashboardData (env : FetchEnv) (tickers : List String) : DashboardData :=
  { stocks := (effectiveTickers tickers).filterMap (getStockData env)
    news := []
    signals := []
    timestamp := env.nowIso }

end YahooApi

/-- A concrete stock quote used to instantiate the end-to-end dashboard
scenario. -/
def sampleStock (t : String) : StockData :=
  { ticker := t, price := 100, price_change_1d := 1, price_change_5d := 0
    rsi := 50, rsi_status := "NEUTRAL", macd := 0, macd_signal := 0
    ema20 := 0, bollinger_high := 0, bollinger_low := 0, atr := 0
    trend := "BULLISH", volume := 1000, last_updated := "2024-01-01" }

/-- A concrete news item used to instantiate the end-to-end dashboard
scenario. -/
def sampleNews (t : String) : NewsItem :=
  { title := t, url := "http://example.com", source := "wire"
    published_at := "2024-01-01", content := "body", sentiment := "positive"
    confidence := 1 }

/-- A concrete signal used to instantiate the end-to-end dashboard
scenario. -/
def sampleSignal : Signal :=
  { ticker := "TCS", signal := "buy", signals := ["ema"]
    reasoning := ["momentum"], generated_at := "2024-01-01" }

/-- A bundle with 2 stocks, 3 news items and 1 signal: the scenario of
the spec's end-to-end property. -/
def sampleBundle : DashboardData :=
  { stocks := [sampleStock "A", sampleStock "B"]
    news := [sampleNews "n1", sampleNews "n2", sampleNews "n3"]
    signals := [sampleSignal]
    timestamp := "2024-01-01" }

/-- A concrete fetch environment in which exactly one Yahoo symbol
(`TCS.NS`) fails and every other quote succeeds. -/
def sampleEnv : YahooApi.FetchEnv :=
  { quote := fun s =>
      if s = "TCS.NS" then none
      else some { regularMarketPrice := some 10, regularMarketChangePercent := some 1
                  regularMarketVolume := some 5, regularMarketTime := some 0 }
    isoOfTime := fun _ => "1970-01-01T00:00:00.000Z"
    nowIso := "2024-01-01T00:00:00.000Z" }

theorem char_toNat_ofNat (n : Nat) (h : n.isValidChar) : (Char.ofNat n).toNat = n := by
  rw [Char.ofNat, dif_pos h]
  rfl

theorem char_toUpper_toNat_of_lower (c : Char) (h : 97 ≤ c.toNat ∧ c.toNat ≤ 122) :
    c.toUpper.toNat = c.toNat - 32 := by
  unfold Char.toUpper
  rw [if_pos ⟨h.1, h.2⟩]
  exact char_toNat_ofNat _ (Or.inl (by omega))

theorem char_toUpper_eq_self (c : Char) (h : ¬ (97 ≤ c.toNat ∧ c.toNat ≤ 122)) :
    c.toUpper = c := by
  unfold Char.toUpper
  rw [if_neg h]

theorem char_toUpper_idem (c : Char) : c.toUpper.toUpper = c.toUpper := by
  by_cases h : 97 ≤ c.toNat ∧ c.toNat ≤ 122
  · have h1 := char_toUpper_toNat_of_lower c h
    exact char_toUpper_eq_self _ (by omega)
  · rw [char_toUpper_eq_self c h, char_toUpper_eq_self c h]

theorem isQuoteChar_toUpper (c : Char) : isQuoteChar c.toUpper = isQuoteChar c := by
  by_cases h : 97 ≤ c.toNat ∧ c.toNat ≤ 122
  · have h1 := char_toUpper_toNat_of_lower c h
    unfold isQuoteChar
    rw [h1]
    apply decide_eq_decide.mpr
    omega
  · rw [char_toUpper_eq_self c h]

theorem dropWhile_map_comm {p : Char → Bool} {f : Char → Char}
    (hf : ∀ c, p (f c) = p c) (l : List Char) :
    (l.map f).dropWhile p = (l.dropWhile p).map f := by
  induction l with
  | nil => rfl
  | cons a t ih =>
    simp only [List.map_cons, List.dropWhile_cons, hf a]
    cases h : p a with
    | true => simpa using ih
    | false => simp

theorem dropWhile_idem {α : Type} (p : α → Bool) (l : List α) :
    (l.dropWhile p).dropWhile p = l.dropWhile p := by
  induction l with
  | nil => rfl
  | cons a t ih =>
    simp only [List.dropWhile_cons]
    cases h : p a with
    | true => simpa using ih
    | false => simp [List.dropWhile_cons, h]

theorem dropWhile_append_singleton {α : Type} (p : α → Bool) (a : α)
    (h : p a = false) (l : List α) :
    (l ++ [a]).dropWhile p = l.dropWhile p ++ [a] := by
  induction l with
  | nil => simp [List.dropWhile_cons, h]
  | cons b t ih =>
    simp only [List.cons_append, List.dropWhile_cons]
    cases hb : p b with
    | true => simpa using ih
    | false => simp

theorem dropWhile_eq_cons_head {α : Type} (p : α → Bool) (l : List α)
    (a : α) (t : List α) (h : l.dropWhile p = a :: t) : p a = false := by
  induction l with
  | nil => simp at h
  | cons b l' ih =>
    rw [List.dropWhile_cons] at h
    by_cases hb : p b = true
    · rw [if_pos hb] at h
      exact ih h
    · rw [if_neg hb] at h
      cases h
      simpa using hb

theorem dropTrailingQuotes_of_head_not_quote (a : Char) (t : List Char)
    (h : isQuoteChar a = false) :
    dropTrailingQuotes (a :: t) = a :: (t.reverse.dropWhile isQuoteChar).reverse := by
  unfold dropTrailingQuotes
  rw [List.reverse_cons, dropWhile_append_singleton _ _ h, List.reverse_append]
  rfl

theorem dropLeading_dropTrailing_dropLeading (l : List Char) :
    dropLeadingQuotes (dropTrailingQuotes (dropLeadingQuotes l)) =
      dropTrailingQuotes (dropLeadingQuotes l) := by
  cases h : dropLeadingQuotes l with
  | nil => rfl
  | cons a t =>
    have ha : isQuoteChar a = false := dropWhile_eq_cons_head _ l a t h
    rw [dropTrailingQuotes_of_head_not_quote a t ha]
    unfold dropLeadingQuotes
    rw [List.dropWhile_cons, ha]
    simp

theorem dropTrailingQuotes_idem (l : List Char) :
    dropTrailingQuotes (dropTrailingQuotes l) = dropTrailingQuotes l := by
  unfold dropTrailingQuotes
  rw [List.reverse_reverse, dropWhile_idem]

theorem stripQuotes_idem (l : List Char) :
    dropTrailingQuotes (dropLeadingQuotes (dropTrailingQuotes (dropLeadingQuotes l))) =
      dropTrailingQuotes (dropLeadingQuotes l) := by
  rw [dropLeading_dropTrailing_dropLeading, dropTrailingQuotes_idem]

theorem dropLeadingQuotes_map_toUpper (l : List Char) :
    dropLeadingQuotes (l.map Char.toUpper) = (dropLeadingQuotes l).map Char.toUpper :=
  dropWhile_map_comm isQuoteChar_toUpper l

theorem dropTrailingQuotes_map_toUpper (l : List Char) :
    dropTrailingQuotes (l.map Char.toUpper) = (dropTrailingQuotes l).map Char.toUpper := by
  unfold dropTrailingQuotes
  rw [← List.map_reverse, dropWhile_map_comm isQuoteChar_toUpper, List.map_reverse]

theorem cleanTickerChars_idem (l : List Char) :
    cleanTickerChars (cleanTickerChars l) = cleanTickerChars l := by
  unfold cleanTickerChars
  rw [dropLeadingQuotes_map_toUpper, dropTrailingQuotes_map_toUpper, stripQuotes_idem,
    List.map_map]
  exact List.map_congr_left (fun c _ => char_toUpper_idem c)

theorem jsToFixed_eval (d : Nat) (q : ℚ) (hq : ¬ q < 0) (m : Nat) (hd : d ≠ 0)
    (hm : Int.floor (q * (10 : ℚ) ^ d + 1 / 2) = (m : ℤ)) :
    jsToFixed d q = toString (m / 10 ^ d) ++ "." ++ jsToFixedPad d (m % 10 ^ d) := by
  unfold jsToFixed jsToFixedNonneg
  rw [if_neg hq, hm, Int.toNat_natCast, if_neg hd]

/-- C1: the spec (and `cleanTicker`'s own doc comments) promise that
surrounding whitespace is stripped, so that `cleanTicker "'aapl' "`
equals `"AAPL"`. The code only strips quote runs anchored at the very
ends of the string, so on this input the inner quote and the trailing
space survive: the call returns `"AAPL' "`. -/
theorem cleanTicker_keeps_inner_quote_and_space :
    cleanTicker "'aapl' " = "AAPL' " ∧ cleanTicker "'aapl' " ≠ "AAPL" := by
  constructor
  · decide
  · decide

theorem formatNumber_M_branch :
    FastInfoCard.formatNumber (some 1500000) = "$1.50M" := by
  show FastInfoCard.formatNumberVal 1500000 = "$1.50M"
  unfold FastInfoCard.formatNumberVal
  rw [if_neg (by norm_num), if_neg (by norm_num), if_pos (by norm_num)]
  rw [jsToFixed_eval 2 _ (by norm_num) 150 (by norm_num)
    (by rw [Int.floor_eq_iff] ; norm_num)]
  decide

theorem formatNumber_literal_branch :
    FastInfoCard.formatNumber (some 999) = "$999.00" := by
  show FastInfoCard.formatNumberVal 999 = "$999.00"
  unfold FastInfoCard.formatNumberVal
  rw [if_neg (by norm_num), if_neg (by norm_num), if_neg (by norm_num),
    if_neg (by norm_num)]
  rw [jsToFixed_eval 2 _ (by norm_num) 99900 (by norm_num)
    (by rw [Int.floor_eq_iff] ; norm_num)]
  decide

theorem formatNumber_B_branch :
    FastInfoCard.formatNumber (some 2300000000) = "$2.30B" := by
  show FastInfoCard.formatNumberVal 2300000000 = "$2.30B"
  unfold FastInfoCard.formatNumberVal
  rw [if_neg (by norm_num), if_pos (by norm_num)]
  rw [jsToFixed_eval 2 _ (by norm_num) 230 (by norm_num)
    (by rw [Int.floor_eq_iff] ; norm_num)]
  decide

theorem fmt_formatNumber_M_branch : Fmt.formatNumber 1500000 = "1.5M" := by
  unfold Fmt.formatNumber
  rw [if_pos (by norm_num)]
  rw [jsToFixed_eval 1 _ (by norm_num) 15 (by norm_num)
    (by rw [Int.floor_eq_iff] ; norm_num)]
  decide

/-- C5: the claim's expected strings lack the `$` prefix the fast-info
formatter emits (`format(1500000)` is `"$1.50M"`, not `"1.50M"`), and the
utils formatter of part_007 has no T/B rungs and uses one decimal
(`format(1500000)` is `"1.5M"`, `format(999)` is `"999"`). -/
theorem formatNumber_claim_counterexample :
    FastInfoCard.formatNumber (some 1500000) ≠ "1.50M" ∧
    FastInfoCard.formatNumber (some 1500000) = "$1.50M" ∧
    Fmt.formatNumber 1500000 ≠ "1.50M" ∧ Fmt.formatNumber 1500000 = "1.5M" := by
  refine ⟨?_, formatNumber_M_branch, ?_, fmt_formatNumber_M_branch⟩
  · rw [formatNumber_M_branch]
    decide
  · rw [fmt_formatNumber_M_branch]
    decide

/-- C5 (amended): the fast-info formatter follows the spec's suffix
ladder (1e12 T, 1e9 B, 1e6 M, 1e3 K, else literal, two decimals) but
prefixes every result with `$`: `format(1500000) = "$1.50M"`,
`format(999) = "$999.00"`, `format(2300000000) = "$2.30B"` (and `none`
renders "N/A"). -/
theorem formatNumber_dollar_ladder :
    (∀ v : ℚ, FastInfoCard.formatNumber (some v) = "$" ++ formatNumberSpecLadder v) ∧
    FastInfoCard.formatNumber none = "N/A" ∧
    FastInfoCard.formatNumber (some 1500000) = "$1.50M" ∧
    FastInfoCard.formatNumber (some 999) = "$999.00" ∧
    FastInfoCard.formatNumber (some 2300000000) = "$2.30B" := by
  refine ⟨?_, rfl, formatNumber_M_branch, formatNumber_literal_branch,
    formatNumber_B_branch⟩
  intro v
  show FastInfoCard.formatNumberVal v = "$" ++ formatNumberSpecLadder v
  unfold FastInfoCard.formatNumberVal formatNumberSpecLadder
  by_cases h1 : v ≥ 1000000000000
  · rw [if_pos h1, if_pos h1, String.append_assoc]
  rw [if_neg h1, if_neg h1]
  by_cases h2 : v ≥ 1000000000
  · rw [if_pos h2, if_pos h2, String.append_assoc]
  rw [if_neg h2, if_neg h2]
  by_cases h3 : v ≥ 1000000
  · rw [if_pos h3, if_pos h3, String.append_assoc]
  rw [if_neg h3, if_neg h3]
  by_cases h4 : v ≥ 1000
  · rw [if_pos h4, if_pos h4, String.append_assoc]
  rw [if_neg h4, if_neg h4]

/-- C7: ticker normalization is idempotent — `cleanTicker (cleanTicker x)`
equals `cleanTicker x` for every string `x` (the stripped string has no
quote run left at either end, and the basic-latin upper-casing is
idempotent and maps no character to a quote). -/
theorem cleanTicker_idempotent (s : String) :
    cleanTicker (cleanTicker s) = cleanTicker s :=
  congrArg String.mk (cleanTickerChars_idem s.data)

/-- C2: the claim fails on the `useDashboardData` variant of
`src/unnamed/part_008` (one of the claim's cited implementations): given
the empty ticker list it still issues the `GET /dashboard` request (with
an empty `tickers` parameter) and moves into the loading state instead of
resolving immediately to a non-loading empty state. -/
theorem useDashboardData_unguarded_fetches_on_empty :
    (Hooks.dashboardEffectUnguarded [] Hooks.initialHookState).2 = some [] ∧
    (Hooks.dashboardEffectUnguarded [] Hooks.initialHookState).1.loading = true :=
  ⟨rfl, rfl⟩

/-- C2 (amended): the two `useDashboardData` implementations diverge on
the empty ticker list. The hook at
`src/Frontend/src/hooks/useDashboardData.ts` guards on
`tickers.length > 0`: it issues no fetch (and creates no refresh timer)
and immediately resolves to `data = null`, `loading = false`,
`error = null`. The variant at `src/unnamed/part_008` has no guard: it
issues the `GET /dashboard` request for the (empty) ticker list and sets
`loading = true`. -/
theorem useDashboardData_empty_two_variants (tickers : List String)
    (s : Hooks.HookState) (h : tickers = []) :
    Hooks.dashboardEffect tickers s =
      ({ data := none, loading := false, error := none }, false) ∧
    Hooks.dashboardEffectUnguarded tickers s =
      ({ s with loading := true }, some tickers) := by
  subst h
  exact ⟨rfl, rfl⟩

theorem useDashboardData_empty_two_variants_witness :
    ([] : List String) = [] ∧
    (Hooks.dashboardEffect [] Hooks.initialHookState =
        ({ data := none, loading := false, error := none }, false) ∧
      Hooks.dashboardEffectUnguarded [] Hooks.initialHookState =
        ({ Hooks.initialHookState with loading := true }, some [])) :=
  ⟨rfl, useDashboardData_empty_two_variants [] Hooks.initialHookState rfl⟩

/-- C3: when a dashboard fetch fails while the hook is still mounted, the
settled state has `loading = false`, carries the failure's message in
`error`, and leaves `data` exactly as it was — the payload of the most
recent successful fetch is not cleared. -/
theorem useDashboardData_failure_keeps_data (s : Hooks.HookState) (msg : String) :
    (Hooks.fetchSettle true s (Except.error msg)).loading = false ∧
    (Hooks.fetchSettle true s (Except.error msg)).error = some msg ∧
    (Hooks.fetchSettle true s (Except.error msg)).data = s.data :=
  ⟨rfl, rfl, rfl⟩

/-- C4: for a bundle with 2 stocks, 3 news items and 1 signal, the
dashboard renders 2 stock cards, 1 signal entry, and 3 = min(3,5) news
cards; and for every news list the news panel renders
min(length, 5) cards, never more than five. -/
theorem dashboard_render_counts (b : DashboardData)
    (hs : b.stocks.length = 2) (hn : b.news.length = 3)
    (hg : b.signals.length = 1) :
    (StockGrid.render b.stocks).length = 2 ∧
    (SignalsPanel.render b.signals).length = 1 ∧
    (NewsPanel.render b.news).length = 3 ∧
    ∀ news : List NewsItem,
      (NewsPanel.render news).length = min news.length 5 := by
  refine ⟨?_, ?_, ?_, ?_⟩
  · rw [StockGrid.render, List.length_map, hs]
  · rw [SignalsPanel.render, if_neg (by omega), List.length_map, hg]
  · rw [NewsPanel.render, if_neg (by omega), List.length_take, hn]
    rfl
  · intro news
    rw [NewsPanel.render]
    by_cases h : news.length = 0
    · rw [if_pos h]
      simp [h]
    · rw [if_neg h, List.length_take, Nat.min_comm]

theorem dashboard_render_counts_witness :
    (sampleBundle.stocks.length = 2 ∧ sampleBundle.news.length = 3 ∧
      sampleBundle.signals.length = 1) ∧
    ((StockGrid.render sampleBundle.stocks).length = 2 ∧
      (SignalsPanel.render sampleBundle.signals).length = 1 ∧
      (NewsPanel.render sampleBundle.news).length = 3 ∧
      ∀ news : List NewsItem,
        (NewsPanel.render news).length = min news.length 5) :=
  ⟨⟨rfl, rfl, rfl⟩, dashboard_render_counts sampleBundle rfl rfl rfl⟩

theorem filterOutIndex_append (c : QueryBuilder.Condition)
    (l : List QueryBuilder.Condition) :
    ∀ n, QueryBuilder.filterOutIndex n (n + l.length) (l ++ [c]) = l := by
  induction l with
  | nil =>
    intro n
    show QueryBuilder.filterOutIndex n (n + 0) [c] = []
    rw [QueryBuilder.filterOutIndex, if_pos (by omega)]
    rfl
  | cons a as ih =>
    intro n
    show QueryBuilder.filterOutIndex n (n + (as.length + 1)) (a :: (as ++ [c])) =
      a :: as
    rw [QueryBuilder.filterOutIndex, if_neg (by omega),
      show n + (as.length + 1) = (n + 1) + as.length by omega, ih (n + 1)]

/-- C6: appending a condition with `addCondition` (which inserts at index
`length L`) and then calling `removeCondition` at that same index
restores the condition list — and hence the whole query — exactly. -/
theorem screener_add_then_remove_roundtrip (q : QueryBuilder.Query) :
    QueryBuilder.removeCondition (QueryBuilder.addCondition q)
      q.operands.length = q := by
  have h := filterOutIndex_append QueryBuilder.newCondition q.operands 0
  rw [Nat.zero_add] at h
  show ({ operator := q.operator
          operands := QueryBuilder.filterOutIndex 0 q.operands.length
            (q.operands ++ [QueryBuilder.newCondition]) } : QueryBuilder.Query) = q
  rw [h]

/-- C8: both enum-to-style mappers are total Lean functions, and every
input outside the recognized arms lands in the `default` arm: the
neutral newspaper style for `getSentimentColor`, the gray classes for
`getSignalColor`. Neither can throw. -/
theorem style_mappers_total_with_default (s t : String)
    (h1 : jsToUpperCase s ≠ "POSITIVE") (h2 : jsToUpperCase s ≠ "NEGATIVE")
    (h3 : jsToUpperCase s ≠ "NEUTRAL")
    (h4 : t ≠ "buy") (h5 : t ≠ "sell") (h6 : t ≠ "hold") :
    NewsCard.getSentimentColor s = NewsCard.defaultSentimentStyle ∧
    SignalsPanel.getSignalColor t = "text-gray-600 bg-gray-50" := by
  constructor
  · rw [NewsCard.getSentimentColor, if_neg h1, if_neg h2, if_neg h3]
  · rw [SignalsPanel.getSignalColor, if_neg h4, if_neg h5, if_neg h6]

theorem style_mappers_total_with_default_witness :
    (jsToUpperCase "bearish!" ≠ "POSITIVE" ∧ "strong-buy" ≠ "buy") ∧
    NewsCard.getSentimentColor "bearish!" = NewsCard.defaultSentimentStyle ∧
    SignalsPanel.getSignalColor "strong-buy" = "text-gray-600 bg-gray-50" :=
  ⟨⟨by decide, by decide⟩,
    style_mappers_total_with_default "bearish!" "strong-buy" (by decide)
      (by decide) (by decide) (by decide) (by decide) (by decide)⟩

/-- C9: a quick question is not appended to the message history as a user
message — `handleQuickQuestion` hands the templated question straight to
`askQuestion`, leaving the history untouched, contrary to the claim that
it goes "through the same path as a typed message". Shown on the first
canned question with the default ticker. -/
theorem quickQuestion_history_unchanged :
    (AIChat.handleQuickQuestion AIChat.initialMessages "RELIANCE.NS"
        "Should I buy {ticker} right now?").1 = AIChat.initialMessages ∧
    (AIChat.handleQuickQuestion AIChat.initialMessages "RELIANCE.NS"
        "Should I buy {ticker} right now?").1 ≠
      AIChat.addMessage AIChat.initialMessages "user"
        "Should I buy RELIANCE.NS right now?" ∧
    (AIChat.handleQuickQuestion AIChat.initialMessages "RELIANCE.NS"
        "Should I buy {ticker} right now?").2 =
      some "Should I buy RELIANCE.NS right now?" := by
  refine ⟨rfl, by decide, by decide⟩

/-- C9 (amended): a quick question is templated by substituting the
currently selected ticker for the `{ticker}` placeholder and the request
is then issued through `askQuestion` — the same request path a typed
message ends in — but, unlike a typed message (which `sendMessage`
appends as a user message before asking), the quick question itself is
never appended to the message history. -/
theorem quickQuestion_template_path (msgs : List AIChat.ChatMsg)
    (t q : String) :
    (AIChat.handleQuickQuestion msgs t q).1 = msgs ∧
    (AIChat.handleQuickQuestion msgs t q).2 =
      some (AIChat.replaceFirst q "{ticker}" t) ∧
    AIChat.handleQuickQuestion msgs "RELIANCE.NS"
        "Should I buy {ticker} right now?" =
      (msgs, some "Should I buy RELIANCE.NS right now?") ∧
    AIChat.handleQuickQuestion msgs "TCS.NS" "What are the risks of {ticker}?" =
      (msgs, some "What are the risks of TCS.NS?") ∧
    AIChat.sendMessage msgs "hello" false =
      (AIChat.addMessage msgs "user" "hello", some "hello") := by
  refine ⟨rfl, rfl, ?_, ?_, ?_⟩
  · exact congrArg (fun z => (msgs, z)) (by decide)
  · exact congrArg (fun z => (msgs, z)) (by decide)
  · show (if (AIChat.jsTrim "hello").isEmpty || false then (msgs, none)
      else (AIChat.addMessage msgs "user" (AIChat.jsTrim "hello"),
        some (AIChat.jsTrim "hello"))) =
      (AIChat.addMessage msgs "user" "hello", some "hello")
    rw [show AIChat.jsTrim "hello" = "hello" from by decide]
    rfl

/-- C10: with an empty ticker list the Yahoo client falls back to the
full 50-symbol NIFTY-50 list (one quote request per symbol, mapped to its
`.NS` Yahoo form), keeps only the successful fetches (`filterMap` models
the swallowed per-symbol `try`/`catch`), and the returned bundle's news
and signals are empty for every input. In `sampleEnv` exactly one of the
50 symbols fails, and exactly 49 stocks come back. -/
theorem yahoo_dashboard_empty_ticker_fallback (env : YahooApi.FetchEnv)
    (tickers : List String) :
    YahooApi.dashboardRequests [] =
      YahooApi.NIFTY_50_TICKERS.map YahooApi.mapTickerToYahooSymbol ∧
    YahooApi.NIFTY_50_TICKERS.length = 50 ∧
    (YahooApi.dashboardRequests []).length = 50 ∧
    (YahooApi.getDashboardData env []).stocks =
      YahooApi.NIFTY_50_TICKERS.filterMap (YahooApi.getStockData env) ∧
    (YahooApi.getDashboardData env tickers).news = [] ∧
    (YahooApi.getDashboardData env tickers).signals = [] ∧
    (YahooApi.getDashboardData sampleEnv []).stocks.length = 49 := by
  refine ⟨rfl, by decide, ?_, rfl, rfl, rfl, by decide⟩
  rw [YahooApi.dashboardRequests, List.length_map]
  decide
